import Mathlib

/-!
Verification of rich's legacy Windows console layer
(`rich/_win32_console.py` and `rich/_windows_renderer.py`).

The adapter is embedded shallowly:

* every native console call that the Python layer can issue becomes a
  constructor of `NativeCall`, and each operation returns the list of native
  calls it issues, in order (its *trace*);
* the console device is modelled by `ConsoleState` (cursor position and
  screen-buffer size); queries (`cursor_position`, `screen_size`) read this
  state fresh on every use, exactly as the Python code re-queries the device;
* machine words are `Nat`/`Int` with explicit reductions where ctypes would
  coerce (`% 65536` for a WORD attribute, `% 4294967296` for a DWORD length).

Color downgrading (`rich/color.py`) is outside the fragment under study: a
style channel is therefore carried as "absent", or "present with the number
its WINDOWS-system downgrade resolved to" (`Option Nat`, `none` when the
downgrade yields no number), which is exactly the data `write_styled` consumes.
-/

/-- Coordinates as used throughout `_win32_console.py`: a (row, col) pair,
mirroring the `WindowsCoordinates` NamedTuple. Components are `Int` because
relative cursor moves can compute negative targets. -/
structure WindowsCoordinates where
  row : Int
  col : Int
deriving DecidableEq, Repr

/-- One native console (or output-stream) call issued by the adapter. -/
inductive NativeCall where
  /-- `SetConsoleTextAttribute(handle, attributes)`, attribute word a WORD. -/
  | setConsoleTextAttribute (attributes : Nat)
  /-- The text write performed by `write_text` (`file.write` + `file.flush`). -/
  | writeText (text : String)
  /-- The unguarded native `SetConsoleCursorPosition` call. -/
  | setConsoleCursorPosition (coords : WindowsCoordinates)
  /-- The native `FillConsoleOutputCharacterW` call: fill `length` cells with
  `char` beginning at `start`. -/
  | fillConsoleOutputCharacterW (char : String) (length : Int) (start : WindowsCoordinates)
  /-- `SetConsoleCursorInfo` with a `CONSOLE_CURSOR_INFO(size, visible)`. -/
  | setConsoleCursorInfo (size : Nat) (visible : Bool)
  /-- The native `SetConsoleTitleW` call. -/
  | setConsoleTitleW (title : String)
deriving DecidableEq, Repr

/-- The observable state of the console device: cursor position and screen
buffer size (`screenSize.col` is the width, `screenSize.row` the height).
`GetConsoleScreenBufferInfo` reads this state afresh at every query. -/
structure ConsoleState where
  cursor : WindowsCoordinates
  screenSize : WindowsCoordinates
deriving DecidableEq, Repr

/-- `SetConsoleTextAttribute` wrapper: one native call; the WORD argtype
reduces the attribute word mod 2^16. -/
def SetConsoleTextAttribute (attributes : Nat) : List NativeCall :=
  [NativeCall.setConsoleTextAttribute (attributes % 65536)]

/-- `FillConsoleOutputCharacter` wrapper. The Python body unpacks
`x, y = start` — but `WindowsCoordinates` is the NamedTuple `(row, col)`, so
`x` receives the row and `y` the column — and then issues the native call at
`WindowsCoordinates(row=y, col=x)`. The DWORD argtype reduces the length mod
2^32. The fill does not move the cursor, so the device state is unchanged. -/
def FillConsoleOutputCharacter (char : String) (length : Int) (start : WindowsCoordinates) :
    List NativeCall :=
  let x := start.row
  let y := start.col
  [NativeCall.fillConsoleOutputCharacterW char (length % 4294967296) { row := y, col := x }]

/-- `SetConsoleCursorPosition` wrapper: rejects any coordinate with a negative
component before the native call (returns `false`, issues nothing, mutates
nothing); otherwise issues the native call, which moves the device cursor.
Result: (new device state, trace, return value). -/
def SetConsoleCursorPosition (s : ConsoleState) (coords : WindowsCoordinates) :
    ConsoleState × List NativeCall × Bool :=
  if coords.col < 0 ∨ coords.row < 0 then
    (s, [], false)
  else
    ({ s with cursor := coords }, [NativeCall.setConsoleCursorPosition coords], true)

/-- `SetConsoleCursorInfo` wrapper: one native call carrying the structure. -/
def SetConsoleCursorInfo (size : Nat) (visible : Bool) : List NativeCall :=
  [NativeCall.setConsoleCursorInfo size visible]

namespace LegacyWindowsTerm

/-- `LegacyWindowsTerm.ANSI_TO_WINDOWS`: indices are ANSI color numbers,
values the corresponding Windows Console API color numbers. -/
def ANSI_TO_WINDOWS : List Nat :=
  [0, 4, 2, 6, 1, 5, 3, 7, 8, 12, 10, 14, 9, 13, 11, 15]

end LegacyWindowsTerm

/-- The adapter's construction-time state: `_default_text` is the `wAttributes`
word snapshotted from `GetConsoleScreenBufferInfo` in `__init__` (a WORD, so
below 2^16 on a real console; carried as a plain `Nat`). -/
structure LegacyWindowsTerm where
  default_text : Nat
deriving DecidableEq, Repr

namespace LegacyWindowsTerm

/-- `self._default_fore = default_text & 7`. -/
def default_fore (t : LegacyWindowsTerm) : Nat :=
  t.default_text % 8

/-- `self._default_back = (default_text >> 4) & 7`. -/
def default_back (t : LegacyWindowsTerm) : Nat :=
  (t.default_text / 16) % 8

/-- `self._default_attrs = self._default_fore + self._default_back * 16`
(computed in `__init__`; note `write_styled` restores `_default_text`,
not this value). -/
def default_attrs (t : LegacyWindowsTerm) : Nat :=
  t.default_fore + t.default_back * 16

/-- `write_text`: a pass-through write of the raw characters (write + flush on
the underlying file), no attribute change, no console-API call. -/
def write_text (text : String) : List NativeCall :=
  [NativeCall.writeText text]

end LegacyWindowsTerm

/-- A color channel as `write_styled` sees it after the external downgrade:
`number` is `style.color.downgrade(ColorSystem.WINDOWS).number`, an ANSI
index or `None`. -/
structure DowngradedColor where
  number : Option Nat
deriving DecidableEq, Repr

/-- A style as consumed by this layer: each channel independently absent
(`none`, meaning use the console default) or present with its downgraded
number. -/
structure Style where
  color : Option DowngradedColor
  bgcolor : Option DowngradedColor
deriving DecidableEq, Repr

namespace LegacyWindowsTerm

/-- `write_styled(text, style)`: resolve each channel — when present, take the
downgraded number, substitute ANSI 7 (fore) / ANSI 0 (back) only when the
number `is not None`-check fails, then permute through `ANSI_TO_WINDOWS`
(Python list indexing; in-range by the downgrade contract, modelled with
`getD _ 0`); when absent, use the cached per-channel default. Then: set the
packed attribute word (`c_ushort`), write the text, restore `_default_text`. -/
def write_styled (t : LegacyWindowsTerm) (text : String) (style : Style) :
    List NativeCall :=
  let fore : Nat :=
    match style.color with
    | some color => ANSI_TO_WINDOWS.getD (color.number.getD 7) 0
    | none => t.default_fore
  let back : Nat :=
    match style.bgcolor with
    | some bgcolor => ANSI_TO_WINDOWS.getD (bgcolor.number.getD 0) 0
    | none => t.default_back
  SetConsoleTextAttribute (fore + back * 16) ++
    write_text text ++
      SetConsoleTextAttribute t.default_text

/-- `move_cursor_to`: absolute cursor set through the guarded wrapper. -/
def move_cursor_to (s : ConsoleState) (new_position : WindowsCoordinates) :
    ConsoleState × List NativeCall :=
  let r := SetConsoleCursorPosition s new_position
  (r.1, r.2.1)

/-- `erase_line`: query screen size and cursor afresh, fill `screen_size.col`
cells starting at the computed coordinate (row = cursor row, col = 0). -/
def erase_line (s : ConsoleState) : ConsoleState × List NativeCall :=
  let screen_size := s.screenSize
  let cursor_position := s.cursor
  let cells_to_erase := screen_size.col
  let start_coordinates : WindowsCoordinates := { row := cursor_position.row, col := 0 }
  (s, FillConsoleOutputCharacter " " cells_to_erase start_coordinates)

/-- `erase_end_of_line`: fill `screen_size.col - cursor.col` cells starting at
the cursor's position. -/
def erase_end_of_line (s : ConsoleState) : ConsoleState × List NativeCall :=
  let cursor_position := s.cursor
  let cells_to_erase := s.screenSize.col - cursor_position.col
  (s, FillConsoleOutputCharacter " " cells_to_erase cursor_position)

/-- `erase_start_of_line`: textually the same body as `erase_end_of_line` in
the source — fill `screen_size.col - cursor.col` cells starting at the
cursor's position. -/
def erase_start_of_line (s : ConsoleState) : ConsoleState × List NativeCall :=
  let cursor_position := s.cursor
  let cells_to_erase := s.screenSize.col - cursor_position.col
  (s, FillConsoleOutputCharacter " " cells_to_erase cursor_position)

/-- `move_cursor_up`: set the cursor to (row - 1, col). -/
def move_cursor_up (s : ConsoleState) : ConsoleState × List NativeCall :=
  let cursor_position := s.cursor
  move_cursor_to s { row := cursor_position.row - 1, col := cursor_position.col }

/-- `move_cursor_down`: set the cursor to (row + 1, col). -/
def move_cursor_down (s : ConsoleState) : ConsoleState × List NativeCall :=
  let cursor_position := s.cursor
  move_cursor_to s { row := cursor_position.row + 1, col := cursor_position.col }

/-- `move_cursor_forward`: wrap to (row + 1, 0) when at the last column of the
freshly queried width, else advance the column. -/
def move_cursor_forward (s : ConsoleState) : ConsoleState × List NativeCall :=
  let row := s.cursor.row
  let col := s.cursor.col
  if col = s.screenSize.col - 1 then
    move_cursor_to s { row := row + 1, col := 0 }
  else
    move_cursor_to s { row := row, col := col + 1 }

/-- `move_cursor_backward`: wrap to (row - 1, width - 1) when at column 0,
else decrement the column. -/
def move_cursor_backward (s : ConsoleState) : ConsoleState × List NativeCall :=
  let row := s.cursor.row
  let col := s.cursor.col
  if col = 0 then
    move_cursor_to s { row := row - 1, col := s.screenSize.col - 1 }
  else
    move_cursor_to s { row := row, col := col - 1 }

/-- `hide_cursor`: cursor info with nominal size 100, invisible. -/
def hide_cursor : List NativeCall :=
  SetConsoleCursorInfo 100 false

/-- `show_cursor`: cursor info with nominal size 100, visible. -/
def show_cursor : List NativeCall :=
  SetConsoleCursorInfo 100 true

/-- `set_title`: `assert len(title) < 255` guards the native call; an
oversized title raises before any native call is issued (`none`). -/
def set_title (title : String) : Option (List NativeCall) :=
  if title.length < 255 then
    some [NativeCall.setConsoleTitleW title]
  else
    none

end LegacyWindowsTerm

/-- The control directives of `rich.segment.ControlType` that the dispatcher
in `_windows_renderer.py` understands, each with the payload its
`ControlCode` tuple carries. -/
inductive ControlCode where
  | cursorMoveTo (x y : Int)
  | carriageReturn
  | home
  | cursorUp
  | cursorDown
  | cursorForward
  | cursorBackward
  | hideCursor
  | showCursor
  | eraseInLine (mode : Nat)
deriving DecidableEq, Repr

/-- A render instruction (`rich.segment.Segment`): text, optional style,
optional list of control codes. -/
structure Segment where
  text : String
  style : Option Style
  control : Option (List ControlCode)
deriving DecidableEq, Repr

/-- One arm of the dispatcher's `elif` chain: map a control code to the
matching adapter primitive. `erase-in-line` modes 0/1/2 route to
end-of-line / start-of-line / whole-line; any other mode falls through the
chain with no call. -/
def dispatchControl (s : ConsoleState) : ControlCode → ConsoleState × List NativeCall
  | ControlCode.cursorMoveTo x y =>
      LegacyWindowsTerm.move_cursor_to s { row := y - 1, col := x - 1 }
  | ControlCode.carriageReturn => (s, LegacyWindowsTerm.write_text "\r")
  | ControlCode.home => LegacyWindowsTerm.move_cursor_to s { row := 0, col := 0 }
  | ControlCode.cursorUp => LegacyWindowsTerm.move_cursor_up s
  | ControlCode.cursorDown => LegacyWindowsTerm.move_cursor_down s
  | ControlCode.cursorForward => LegacyWindowsTerm.move_cursor_forward s
  | ControlCode.cursorBackward => LegacyWindowsTerm.move_cursor_backward s
  | ControlCode.hideCursor => (s, LegacyWindowsTerm.hide_cursor)
  | ControlCode.showCursor => (s, LegacyWindowsTerm.show_cursor)
  | ControlCode.eraseInLine 0 => LegacyWindowsTerm.erase_end_of_line s
  | ControlCode.eraseInLine 1 => LegacyWindowsTerm.erase_start_of_line s
  | ControlCode.eraseInLine 2 => LegacyWindowsTerm.erase_line s
  | ControlCode.eraseInLine _ => (s, [])

/-- One iteration of the dispatcher loop: `if not control` (falsy for `None`
and for an empty list) selects the text path — styled when the segment
carries a style — otherwise every control code of the batch is dispatched in
order. Text writes go to the output stream, not the console API, so they do
not change the modelled device state. -/
def renderSegment (t : LegacyWindowsTerm) (s : ConsoleState) (seg : Segment) :
    ConsoleState × List NativeCall :=
  let renderTextRun : ConsoleState × List NativeCall :=
    match seg.style with
    | some style => (s, t.write_styled seg.text style)
    | none => (s, LegacyWindowsTerm.write_text seg.text)
  match seg.control with
  | none => renderTextRun
  | some [] => renderTextRun
  | some (code :: codes) =>
      (code :: codes).foldl
        (fun acc code =>
          let r := dispatchControl acc.1 code
          (r.1, acc.2 ++ r.2))
        (s, [])

/-- `legacy_windows_render(buffer, term)`: walk the buffer front to back,
dispatching each segment. -/
def legacy_windows_render (buffer : List Segment) (t : LegacyWindowsTerm)
    (s : ConsoleState) : ConsoleState × List NativeCall :=
  buffer.foldl
    (fun acc seg =>
      let r := renderSegment t acc.1 seg
      (r.1, acc.2 ++ r.2))
    (s, [])

/-- A cursor-set whose target has a negative component returns `false` with
no call and no state change. -/
theorem SetConsoleCursorPosition_neg (s : ConsoleState) (coords : WindowsCoordinates)
    (h : coords.col < 0 ∨ coords.row < 0) :
    SetConsoleCursorPosition s coords = (s, [], false) := by
  unfold SetConsoleCursorPosition
  rw [if_pos h]

/-- A cursor-set whose target is componentwise non-negative issues the native
call and moves the device cursor. -/
theorem SetConsoleCursorPosition_nonneg (s : ConsoleState) (coords : WindowsCoordinates)
    (h1 : 0 ≤ coords.col) (h2 : 0 ≤ coords.row) :
    SetConsoleCursorPosition s coords =
      ({ s with cursor := coords },
       [NativeCall.setConsoleCursorPosition coords], true) := by
  unfold SetConsoleCursorPosition
  rw [if_neg (by omega)]

/-- `move_cursor_to` at a target with a negative component is a silent no-op. -/
theorem move_cursor_to_neg (s : ConsoleState) (coords : WindowsCoordinates)
    (h : coords.col < 0 ∨ coords.row < 0) :
    LegacyWindowsTerm.move_cursor_to s coords = (s, []) := by
  show ((SetConsoleCursorPosition s coords).1, (SetConsoleCursorPosition s coords).2.1) =
    (s, [])
  rw [SetConsoleCursorPosition_neg s coords h]

/-- C1: a styled write issues exactly one `SetConsoleTextAttribute` with the
resolved attribute word, then the text write, then exactly one
`SetConsoleTextAttribute` restoring the default word cached at construction —
for every style, whether foreground, background, both, or neither is given. -/
theorem write_styled_set_write_restore (t : LegacyWindowsTerm) (text : String)
    (style : Style) :
    ∃ attributes : Nat,
      t.write_styled text style =
        [NativeCall.setConsoleTextAttribute (attributes % 65536),
         NativeCall.writeText text,
         NativeCall.setConsoleTextAttribute (t.default_text % 65536)] :=
  ⟨_, rfl⟩

/-- C2: `ANSI_TO_WINDOWS` is exactly the literal permutation table, and as a
function on ANSI indices 0–15 it is a bijection onto 0–15 (its image is a
permutation of `0..15`). -/
theorem ansi_to_windows_is_bijection :
    LegacyWindowsTerm.ANSI_TO_WINDOWS =
      [0, 4, 2, 6, 1, 5, 3, 7, 8, 12, 10, 14, 9, 13, 11, 15] ∧
    ((List.range 16).map
        (fun i => LegacyWindowsTerm.ANSI_TO_WINDOWS.getD i 0)).Perm
      (List.range 16) := by
  constructor
  · rfl
  · decide

/-- C3: the `FillConsoleOutputCharacter` wrapper issues the native fill at the
transpose of the start coordinate it is given, so each erase operation's
native fill starts at the transpose of the start cell it computed:
`erase_line` at (0, cursor row) instead of (cursor row, 0), and the other two
at (cursor col, cursor row) instead of (cursor row, cursor col). -/
theorem fill_issues_transposed_start (char : String) (length : Int)
    (start : WindowsCoordinates) (s : ConsoleState) :
    FillConsoleOutputCharacter char length start =
      [NativeCall.fillConsoleOutputCharacterW char (length % 4294967296)
        { row := start.col, col := start.row }] ∧
    (LegacyWindowsTerm.erase_line s).2 =
      [NativeCall.fillConsoleOutputCharacterW " " (s.screenSize.col % 4294967296)
        { row := 0, col := s.cursor.row }] ∧
    (LegacyWindowsTerm.erase_end_of_line s).2 =
      [NativeCall.fillConsoleOutputCharacterW " "
        ((s.screenSize.col - s.cursor.col) % 4294967296)
        { row := s.cursor.col, col := s.cursor.row }] ∧
    (LegacyWindowsTerm.erase_start_of_line s).2 =
      [NativeCall.fillConsoleOutputCharacterW " "
        ((s.screenSize.col - s.cursor.col) % 4294967296)
        { row := s.cursor.col, col := s.cursor.row }] :=
  ⟨rfl, rfl, rfl, rfl⟩

/-- C4: a cursor-set whose target has a negative row or column issues no
native call and leaves the device unchanged; hence `move_cursor_up` with the
cursor at row 0, and `move_cursor_backward` with the cursor at (0, 0), are
silent no-ops. -/
theorem negative_cursor_target_is_noop (s : ConsoleState)
    (coords : WindowsCoordinates) :
    (coords.row < 0 ∨ coords.col < 0 →
      LegacyWindowsTerm.move_cursor_to s coords = (s, [])) ∧
    (s.cursor.row = 0 → LegacyWindowsTerm.move_cursor_up s = (s, [])) ∧
    (s.cursor.row = 0 → s.cursor.col = 0 →
      LegacyWindowsTerm.move_cursor_backward s = (s, [])) := by
  refine ⟨fun h => ?_, fun h0 => ?_, fun h0 hc0 => ?_⟩
  · exact move_cursor_to_neg s coords h.symm
  · show LegacyWindowsTerm.move_cursor_to s
      { row := s.cursor.row - 1, col := s.cursor.col } = (s, [])
    exact move_cursor_to_neg s _ (Or.inr (show s.cursor.row - 1 < 0 by omega))
  · unfold LegacyWindowsTerm.move_cursor_backward
    rw [if_pos hc0]
    exact move_cursor_to_neg s _ (Or.inr (show s.cursor.row - 1 < 0 by omega))

/-- C4 witness: with the cursor at (0, 0) on a 25×80 screen, a move to
(-1, 5), a `move_cursor_up`, and a `move_cursor_backward` all issue nothing
and leave the device unchanged. -/
theorem negative_cursor_target_is_noop_witness :
    LegacyWindowsTerm.move_cursor_to ⟨⟨0, 0⟩, ⟨25, 80⟩⟩ ⟨-1, 5⟩ =
      (⟨⟨0, 0⟩, ⟨25, 80⟩⟩, []) ∧
    LegacyWindowsTerm.move_cursor_up ⟨⟨0, 0⟩, ⟨25, 80⟩⟩ =
      (⟨⟨0, 0⟩, ⟨25, 80⟩⟩, []) ∧
    LegacyWindowsTerm.move_cursor_backward ⟨⟨0, 0⟩, ⟨25, 80⟩⟩ =
      (⟨⟨0, 0⟩, ⟨25, 80⟩⟩, []) :=
  ⟨(negative_cursor_target_is_noop ⟨⟨0, 0⟩, ⟨25, 80⟩⟩ ⟨-1, 5⟩).1
      (Or.inl (by decide)),
   (negative_cursor_target_is_noop ⟨⟨0, 0⟩, ⟨25, 80⟩⟩ ⟨-1, 5⟩).2.1 (by decide),
   (negative_cursor_target_is_noop ⟨⟨0, 0⟩, ⟨25, 80⟩⟩ ⟨-1, 5⟩).2.2 (by decide)
      (by decide)⟩

/-- C5: with a non-negative cursor, `move_cursor_forward` at the last column
(width − 1) moves to column 0 of the next row and otherwise advances the
column by one; `move_cursor_backward` at column 0 of a positive row (with a
positive width) moves to column width − 1 of the previous row and otherwise
decrements the column by one. -/
theorem move_cursor_forward_backward_wrap (s : ConsoleState)
    (hrow : 0 ≤ s.cursor.row) (hcol : 0 ≤ s.cursor.col) :
    (s.cursor.col = s.screenSize.col - 1 →
      LegacyWindowsTerm.move_cursor_forward s =
        ({ s with cursor := ⟨s.cursor.row + 1, 0⟩ },
         [NativeCall.setConsoleCursorPosition ⟨s.cursor.row + 1, 0⟩])) ∧
    (s.cursor.col ≠ s.screenSize.col - 1 →
      LegacyWindowsTerm.move_cursor_forward s =
        ({ s with cursor := ⟨s.cursor.row, s.cursor.col + 1⟩ },
         [NativeCall.setConsoleCursorPosition ⟨s.cursor.row, s.cursor.col + 1⟩])) ∧
    (s.cursor.col = 0 → 0 < s.cursor.row → 0 < s.screenSize.col →
      LegacyWindowsTerm.move_cursor_backward s =
        ({ s with cursor := ⟨s.cursor.row - 1, s.screenSize.col - 1⟩ },
         [NativeCall.setConsoleCursorPosition
            ⟨s.cursor.row - 1, s.screenSize.col - 1⟩])) ∧
    (s.cursor.col ≠ 0 →
      LegacyWindowsTerm.move_cursor_backward s =
        ({ s with cursor := ⟨s.cursor.row, s.cursor.col - 1⟩ },
         [NativeCall.setConsoleCursorPosition ⟨s.cursor.row, s.cursor.col - 1⟩])) := by
  refine ⟨fun hlast => ?_, fun hmid => ?_, fun hc0 hr hw => ?_, fun hc => ?_⟩
  · unfold LegacyWindowsTerm.move_cursor_forward LegacyWindowsTerm.move_cursor_to
      SetConsoleCursorPosition
    rw [if_pos hlast, if_neg (by simp; omega)]
  · unfold LegacyWindowsTerm.move_cursor_forward LegacyWindowsTerm.move_cursor_to
      SetConsoleCursorPosition
    rw [if_neg hmid, if_neg (by simp; omega)]
  · unfold LegacyWindowsTerm.move_cursor_backward LegacyWindowsTerm.move_cursor_to
      SetConsoleCursorPosition
    rw [if_pos hc0, if_neg (by simp; omega)]
  · unfold LegacyWindowsTerm.move_cursor_backward LegacyWindowsTerm.move_cursor_to
      SetConsoleCursorPosition
    rw [if_neg hc, if_neg (by simp; omega)]

/-- C5 witness: on a screen of width 5, forward from (2, 4) wraps to (3, 0)
and backward from (3, 0) wraps to (2, 4); forward from (2, 1) goes to (2, 2)
and backward from (2, 1) goes to (2, 0). -/
theorem move_cursor_forward_backward_wrap_witness :
    LegacyWindowsTerm.move_cursor_forward ⟨⟨2, 4⟩, ⟨25, 5⟩⟩ =
      (⟨⟨3, 0⟩, ⟨25, 5⟩⟩, [NativeCall.setConsoleCursorPosition ⟨3, 0⟩]) ∧
    LegacyWindowsTerm.move_cursor_backward ⟨⟨3, 0⟩, ⟨25, 5⟩⟩ =
      (⟨⟨2, 4⟩, ⟨25, 5⟩⟩, [NativeCall.setConsoleCursorPosition ⟨2, 4⟩]) ∧
    LegacyWindowsTerm.move_cursor_forward ⟨⟨2, 1⟩, ⟨25, 5⟩⟩ =
      (⟨⟨2, 2⟩, ⟨25, 5⟩⟩, [NativeCall.setConsoleCursorPosition ⟨2, 2⟩]) ∧
    LegacyWindowsTerm.move_cursor_backward ⟨⟨2, 1⟩, ⟨25, 5⟩⟩ =
      (⟨⟨2, 0⟩, ⟨25, 5⟩⟩, [NativeCall.setConsoleCursorPosition ⟨2, 0⟩]) :=
  ⟨(move_cursor_forward_backward_wrap ⟨⟨2, 4⟩, ⟨25, 5⟩⟩ (by decide) (by decide)).1
      (by decide),
   (move_cursor_forward_backward_wrap ⟨⟨3, 0⟩, ⟨25, 5⟩⟩ (by decide) (by decide)).2.2.1
      (by decide) (by decide) (by decide),
   (move_cursor_forward_backward_wrap ⟨⟨2, 1⟩, ⟨25, 5⟩⟩ (by decide) (by decide)).2.1
      (by decide),
   (move_cursor_forward_backward_wrap ⟨⟨2, 1⟩, ⟨25, 5⟩⟩ (by decide) (by decide)).2.2.2
      (by decide)⟩

/-- C6: the dispatcher translates a 1-based `CURSOR_MOVE_TO(x, y)` into
`move_cursor_to` at the 0-based (row = y − 1, col = x − 1); dispatching the
batch `[move-to(20, 30)]` issues a native absolute move to (29, 19); `HOME`
calls `move_cursor_to` at (0, 0). -/
theorem cursor_move_to_one_based (s : ConsoleState) (t : LegacyWindowsTerm)
    (x y : Int) :
    dispatchControl s (ControlCode.cursorMoveTo x y) =
      LegacyWindowsTerm.move_cursor_to s { row := y - 1, col := x - 1 } ∧
    (legacy_windows_render
        [{ text := "", style := none,
           control := some [ControlCode.cursorMoveTo 20 30] }] t s).2 =
      [NativeCall.setConsoleCursorPosition ⟨29, 19⟩] ∧
    dispatchControl s ControlCode.home =
      LegacyWindowsTerm.move_cursor_to s { row := 0, col := 0 } :=
  ⟨rfl, rfl, rfl⟩

/-- C7 exhibit: with the cursor at (row 5, col 3) on a 25×80 screen,
`erase_line` fills 80 cells but issues the native fill at (row 0, col 5) —
the transpose of its computed start — not at (row 5, col 0), so the blanked
region does not start at column 0 of the cursor's row; the cursor state is
unchanged. -/
theorem erase_line_fill_transposed_at_input :
    LegacyWindowsTerm.erase_line ⟨⟨5, 3⟩, ⟨25, 80⟩⟩ =
      (⟨⟨5, 3⟩, ⟨25, 80⟩⟩,
       [NativeCall.fillConsoleOutputCharacterW " " 80 ⟨0, 5⟩]) ∧
    (⟨0, 5⟩ : WindowsCoordinates) ≠ ⟨5, 0⟩ := by
  refine ⟨rfl, by decide⟩

/-- C8: `erase_start_of_line` and `erase_end_of_line` are observationally
identical — both fill exactly width − cursor-column cells with the cursor's
position as computed start — and neither moves the cursor. -/
theorem erase_start_of_line_eq_erase_end_of_line (s : ConsoleState) :
    LegacyWindowsTerm.erase_start_of_line s = LegacyWindowsTerm.erase_end_of_line s ∧
    LegacyWindowsTerm.erase_end_of_line s =
      (s, FillConsoleOutputCharacter " " (s.screenSize.col - s.cursor.col) s.cursor) :=
  ⟨rfl, rfl⟩

/-- C9 counterexample: on a terminal with default attribute word 7, a style
whose foreground channel is present and resolves to ANSI index 0 produces a
set call with attribute 0 (black used as-is) — not the trace that the
None-resolved channel (fallback ANSI 7) produces — so a resolved 0 is not
treated as "no color resolved". -/
theorem write_styled_zero_index_not_defaulted :
    (LegacyWindowsTerm.mk 7).write_styled "x"
        { color := some { number := some 0 }, bgcolor := none } =
      [NativeCall.setConsoleTextAttribute 0, NativeCall.writeText "x",
       NativeCall.setConsoleTextAttribute 7] ∧
    (LegacyWindowsTerm.mk 7).write_styled "x"
        { color := some { number := some 0 }, bgcolor := none } ≠
      (LegacyWindowsTerm.mk 7).write_styled "x"
        { color := some { number := none }, bgcolor := none } := by
  refine ⟨rfl, by decide⟩

/-- C9 amended: the fallback substitution in `write_styled` is decided by an
explicit None-check on the resolved number, not a falsy check: a present
channel resolving to `None` gets ANSI 7 (fore) / ANSI 0 (back), while a
present channel resolving to index 0 keeps 0 (black) and is mapped through
the table to native 0. -/
theorem write_styled_none_check_not_falsy (t : LegacyWindowsTerm) (text : String) :
    t.write_styled text { color := some { number := some 0 }, bgcolor := none } =
      [NativeCall.setConsoleTextAttribute ((0 + t.default_back * 16) % 65536),
       NativeCall.writeText text,
       NativeCall.setConsoleTextAttribute (t.default_text % 65536)] ∧
    t.write_styled text { color := some { number := none }, bgcolor := none } =
      [NativeCall.setConsoleTextAttribute ((7 + t.default_back * 16) % 65536),
       NativeCall.writeText text,
       NativeCall.setConsoleTextAttribute (t.default_text % 65536)] ∧
    t.write_styled text { color := none, bgcolor := some { number := some 0 } } =
      [NativeCall.setConsoleTextAttribute ((t.default_fore + 0 * 16) % 65536),
       NativeCall.writeText text,
       NativeCall.setConsoleTextAttribute (t.default_text % 65536)] ∧
    t.write_styled text { color := none, bgcolor := some { number := none } } =
      [NativeCall.setConsoleTextAttribute ((t.default_fore + 0 * 16) % 65536),
       NativeCall.writeText text,
       NativeCall.setConsoleTextAttribute (t.default_text % 65536)] :=
  ⟨rfl, rfl, rfl, rfl⟩

/-- C10: `set_title` rejects any title of length 255 or more before issuing
the native call, and issues exactly the native `SetConsoleTitleW` call for
any title of length at most 254. -/
theorem set_title_length_bound (title : String) :
    (255 ≤ title.length → LegacyWindowsTerm.set_title title = none) ∧
    (title.length ≤ 254 →
      LegacyWindowsTerm.set_title title =
        some [NativeCall.setConsoleTitleW title]) := by
  refine ⟨fun h => ?_, fun h => ?_⟩
  · unfold LegacyWindowsTerm.set_title
    rw [if_neg (by omega)]
  · unfold LegacyWindowsTerm.set_title
    rw [if_pos (by omega)]

set_option maxRecDepth 4000 in
/-- C10 witness: a 255-character title is rejected with no native call; the
two-character title "ok" issues the native call. -/
theorem set_title_length_bound_witness :
    LegacyWindowsTerm.set_title (String.mk (List.replicate 255 'a')) = none ∧
    LegacyWindowsTerm.set_title "ok" =
      some [NativeCall.setConsoleTitleW "ok"] :=
  ⟨(set_title_length_bound (String.mk (List.replicate 255 'a'))).1 (by decide),
   (set_title_length_bound "ok").2 (by decide)⟩
